import Mathlib

/-!
Verification of the synchronous timeout policy of pyfaulttolerance
(src/pyfaulttolerance/timeout.py), shallowly embedded in Lean.

The Python source is a decorator factory:

  def timeout(seconds=5):
      if not isinstance(seconds, (int, float)):
          raise TypeError("Timeout value must be a number")
      if seconds < 0:
          raise ValueError("Timeout value must be non-negative")
      def decorator(func):
          def _handle_timeout(signum, frame):
              raise TimeoutException(f"Timeout expired after ... seconds")
          @functools.wraps(func)
          def wrapper(*args, **kwargs):
              if seconds == 0:
                  raise TimeoutException(f"Timeout expired after ... seconds")
              effective_seconds = int(seconds)
              signal.signal(signal.SIGALRM, _handle_timeout)
              signal.alarm(effective_seconds)
              try:
                  result = func(*args, **kwargs)
                  return result
              finally:
                  signal.alarm(0)
          return wrapper
      return decorator

The embedding models Python numbers as exact rationals (the claims do not
depend on binary floating-point rounding; every literal involved, such as
0.05 in the repository tests, is used only through comparisons and int()
truncation that behave identically on exact rationals), a direct unit of
work as a record carrying its wall-clock running time and its outcome, and
the process-wide SIGALRM timer as the list of values passed to
signal.alarm during one wrapper invocation.  The alarm fires during the
wrapped call exactly when it was armed with a nonzero number e of seconds
and the unit of work runs strictly longer than e; signal.alarm(0) cancels
any pending alarm and arms nothing.
-/

namespace PyFaultTolerance

/-- Python values that can be passed as the `seconds` argument of the
`timeout` factory.  Bool is kept separate because in Python `bool` is a
subclass of `int`: `isinstance(True, int)` holds, `True == 1`,
`False == 0`, and `int(True) = 1`. -/
inductive PyVal where
  | int : Int → PyVal
  | float : Rat → PyVal
  | bool : Bool → PyVal
  | str : String → PyVal
  | pyNone : PyVal
deriving DecidableEq, Repr

/-- `isinstance(seconds, (int, float))` in Python: true for int, float and
bool (a subclass of int), false for strings and None. -/
def PyVal.isNumeric : PyVal → Bool
  | .int _ => true
  | .float _ => true
  | .bool _ => true
  | .str _ => false
  | .pyNone => false

/-- The numeric value of a numeric PyVal, as an exact rational
(True counts as 1 and False as 0, as in Python); non-numeric values are
mapped to 0 but are rejected by validation before this is ever used. -/
def PyVal.toRat : PyVal → Rat
  | .int n => (n : Rat)
  | .float q => q
  | .bool b => if b then 1 else 0
  | .str _ => 0
  | .pyNone => 0

/-- Python `int()` on an exact rational: truncation toward zero, i.e. the
floor for non-negative arguments and the ceiling for negative ones. -/
def pyInt (q : Rat) : Int := if q < 0 then ⌈q⌉ else ⌊q⌋

/-- The exceptions the timeout module can surface.  `timeoutException`
carries the `seconds` value interpolated into the message
"Timeout expired after ... seconds", so two TimeoutExceptions are equal
exactly when their messages are.  `userError` is an exception raised by
the wrapped unit of work itself, carrying its Python type name and its
message. -/
inductive PyError where
  | typeError : String → PyError
  | valueError : String → PyError
  | timeoutException : PyVal → PyError
  | userError : String → String → PyError
deriving DecidableEq, Repr

/-- The state captured by a successfully constructed timeout decorator:
the validated `seconds` value closed over by `wrapper`. -/
structure TimeoutPolicy where
  seconds : PyVal
deriving DecidableEq, Repr

/-- The decorator factory `timeout(seconds)`: eager validation, performed
at construction before any unit of work is wrapped or invoked.  A
non-numeric argument raises TypeError, a negative one raises ValueError;
otherwise the factory returns the decorator (modelled by the policy
record). -/
def timeout (seconds : PyVal) : Except PyError TimeoutPolicy :=
  if !seconds.isNumeric then
    .error (.typeError "Timeout value must be a number")
  else if seconds.toRat < 0 then
    .error (.valueError "Timeout value must be non-negative")
  else
    .ok ⟨seconds⟩

/-- The default of the `seconds` parameter in `def timeout(seconds=5)`. -/
def timeoutDefaultSeconds : PyVal := .int 5

/-- Constructing the policy without an explicit duration:
`timeout()` uses the default argument. -/
def timeoutDefault : Except PyError TimeoutPolicy := timeout timeoutDefaultSeconds

/-- A direct (synchronous) unit of work: its declared name and docstring,
the wall-clock time it runs before producing its outcome, and that
outcome (a returned value or an exception of its own). -/
structure DirectUnit (α : Type) where
  name : String
  doc : Option String
  time : Rat
  outcome : Except PyError α

/-- The observable result of one invocation of the wrapper around a direct
unit: the value returned or exception raised, the successive values passed
to signal.alarm during the invocation (in order), and whether the wrapped
unit's body was entered at all. -/
structure InvokeResult (α : Type) where
  outcome : Except PyError α
  alarmCalls : List Nat
  unitEntered : Bool

/-- `effective_seconds = int(seconds)`: the number of whole seconds passed
to signal.alarm.  Validation guarantees `seconds` is non-negative, so the
toNat conversion is lossless. -/
def alarmSeconds (p : TimeoutPolicy) : Nat := (pyInt p.seconds.toRat).toNat

/-- One invocation of `wrapper` on a direct unit of work.

If the original `seconds` equals 0 (true for int 0, float 0.0 and bool
False under Python equality), wrapper raises TimeoutException before
touching the signal machinery and before calling func.

Otherwise wrapper arms signal.alarm with `int(seconds)` and calls func
inside try/finally; the finally clause always issues signal.alarm(0).
Arming with 0 (the truncation of a fractional duration below one second)
cancels any pending alarm instead of scheduling one, so no SIGALRM is ever
delivered in that case and func runs unbounded.  When the armed value e is
nonzero and func runs strictly longer than e seconds, SIGALRM is delivered
mid-call and _handle_timeout raises TimeoutException, unwinding through
the finally clause; otherwise func's own outcome (value or exception)
propagates through the finally clause unchanged. -/
def invokeWrapped {α : Type} (p : TimeoutPolicy) (u : DirectUnit α) : InvokeResult α :=
  if p.seconds.toRat = 0 then
    ⟨.error (.timeoutException p.seconds), [], false⟩
  else
    if alarmSeconds p ≠ 0 ∧ ((alarmSeconds p : Rat) < u.time) then
      ⟨.error (.timeoutException p.seconds), [alarmSeconds p, 0], true⟩
    else
      ⟨u.outcome, [alarmSeconds p, 0], true⟩

/-- The callable returned by `decorator(func)`: `functools.wraps(func)`
copies func's dunder name and docstring onto wrapper, and calling it runs
`wrapper`. -/
structure WrappedUnit (α : Type) where
  name : String
  doc : Option String
  invoke : InvokeResult α

/-- Applying the decorator produced by a validated `timeout(seconds)` call
to a direct unit of work. -/
def decorate {α : Type} (p : TimeoutPolicy) (u : DirectUnit α) : WrappedUnit α :=
  ⟨u.name, u.doc, invokeWrapped p u⟩

/-- The pending-alarm state after a sequence of signal.alarm calls: the
last value set, or the initial pending state if no call was made.  0 means
disarmed. -/
def finalAlarm (init : Nat) (calls : List Nat) : Nat := calls.getLastD init

/-- Claim C1.  The claim states that a fractional duration 0 < d < 1 is
rounded UP to the minimum whole-second resolution, never down to zero.
The code does the opposite: `timeout(0.05)` passes validation, but the
wrapper computes `int(0.05) = 0` and passes 0 to signal.alarm, which
cancels any pending alarm instead of arming one — the timer is silently
disabled and the unit of work (here one taking 10 seconds) runs to
completion unbounded.  This contradicts the claim and the repository's
own test suite (test_sync_timeout_exceeded expects a TimeoutException at
seconds = 0.05). -/
theorem C1_fractional_duration_truncated_to_zero :
    timeout (PyVal.float (1/20)) = Except.ok ⟨PyVal.float (1/20)⟩ ∧
    alarmSeconds ⟨PyVal.float (1/20)⟩ = 0 ∧
    (invokeWrapped ⟨PyVal.float (1/20)⟩
        (⟨"sync_slow_function", Option.none, 10, Except.ok 1⟩ : DirectUnit Nat)).alarmCalls
      = [0, 0] ∧
    (invokeWrapped ⟨PyVal.float (1/20)⟩
        (⟨"sync_slow_function", Option.none, 10, Except.ok 1⟩ : DirectUnit Nat)).outcome
      = Except.ok 1 := by
  have he : alarmSeconds ⟨PyVal.float (1/20)⟩ = 0 := by
    rw [alarmSeconds, pyInt, PyVal.toRat, if_neg (by norm_num)]
    norm_num
  refine ⟨by rw [timeout]; norm_num [PyVal.isNumeric, PyVal.toRat], he, ?_, ?_⟩
  · rw [invokeWrapped, if_neg (by norm_num [PyVal.toRat]), he]
    norm_num
  · rw [invokeWrapped, if_neg (by norm_num [PyVal.toRat]), he]
    norm_num

/-- Claim C2.  The claim states that for every d > 0 a unit completing in
less than d returns its value and a unit taking longer than d raises the
Timeout-expired failure.  Both directions fail on the code because the
wrapper arms signal.alarm with int(d): at d = 0.05 a unit taking 0.1
seconds returns its value (the alarm was armed with 0, i.e. disabled) even
though 0.1 > d, and at d = 1.5 a unit taking 1.3 seconds is interrupted
at the 1-second mark even though 1.3 < d.  The repository's own test
test_sync_timeout_exceeded expects the first case to raise. -/
theorem C2_timeout_bound_violated :
    (invokeWrapped ⟨PyVal.float (1/20)⟩
        (⟨"sync_slow_function", Option.none, 1/10, Except.ok 1⟩ : DirectUnit Nat)).outcome
      = Except.ok 1 ∧
    (invokeWrapped ⟨PyVal.float (3/2)⟩
        (⟨"sync_mid_function", Option.none, 13/10, Except.ok 2⟩ : DirectUnit Nat)).outcome
      = Except.error (PyError.timeoutException (PyVal.float (3/2))) := by
  constructor
  · rw [invokeWrapped, if_neg (by norm_num [PyVal.toRat])]
    rw [show alarmSeconds ⟨PyVal.float (1/20)⟩ = 0 from by
      rw [alarmSeconds, pyInt, PyVal.toRat, if_neg (by norm_num)]; norm_num]
    norm_num
  · rw [invokeWrapped, if_neg (by norm_num [PyVal.toRat])]
    rw [show alarmSeconds ⟨PyVal.float (3/2)⟩ = 1 from by
      rw [alarmSeconds, pyInt, PyVal.toRat, if_neg (by norm_num)]; norm_num]
    norm_num

/-- Claim C3: with duration exactly 0 (under Python equality, so int 0 and
float 0.0 alike), every invocation of the wrapped unit raises the
Timeout-expired failure at once: no signal.alarm call is ever made (the
interrupt is never armed) and the wrapped unit's body is never entered, so
none of its side effects run. -/
theorem C3_zero_duration_fails_immediately {α : Type} (p : TimeoutPolicy)
    (u : DirectUnit α) (h : p.seconds.toRat = 0) :
    invokeWrapped p u = ⟨.error (.timeoutException p.seconds), [], false⟩ := by
  rw [invokeWrapped, if_pos h]

/-- Concrete instance of C3 at duration 0 and a unit that would return 7
after one second. -/
theorem C3_zero_duration_fails_immediately_witness :
    invokeWrapped ⟨PyVal.int 0⟩ (⟨"unit", Option.none, 1, Except.ok 7⟩ : DirectUnit Nat)
      = ⟨Except.error (PyError.timeoutException (PyVal.int 0)), [], false⟩ :=
  C3_zero_duration_fails_immediately ⟨PyVal.int 0⟩ _ (by norm_num [PyVal.toRat])

/-- Claim C4: for every nonzero duration, whatever the outcome of the
invocation — the unit returns a value, the unit raises its own failure, or
the interrupt fires — the last signal.alarm call of the invocation is
signal.alarm(0) (the try/finally cleanup), so the pending alarm is always
0 (disarmed) afterwards, whatever it was before. -/
theorem C4_alarm_disarmed_on_every_exit {α : Type} (init : Nat) (p : TimeoutPolicy)
    (u : DirectUnit α) (h : p.seconds.toRat ≠ 0) :
    finalAlarm init (invokeWrapped p u).alarmCalls = 0 := by
  rw [invokeWrapped, if_neg h]
  split <;> rfl

/-- Concrete instance of C4: duration 2, a unit taking 5 seconds (the
interrupt-fires exit path), initial pending alarm 3. -/
theorem C4_alarm_disarmed_on_every_exit_witness :
    finalAlarm 3 (invokeWrapped ⟨PyVal.int 2⟩
        (⟨"slow", Option.none, 5, Except.ok 0⟩ : DirectUnit Nat)).alarmCalls = 0 :=
  C4_alarm_disarmed_on_every_exit 3 ⟨PyVal.int 2⟩ _ (by norm_num [PyVal.toRat])

/-- Claim C5: the factory validates eagerly, before any decorator or
wrapper exists, so no unit of work can have been invoked.  A non-numeric
`seconds` yields the TypeError, a numeric negative one yields the
ValueError, and the two validation failures are distinct whatever their
messages. -/
theorem C5_eager_validation (v : PyVal) :
    (v.isNumeric = false →
      timeout v = Except.error (PyError.typeError "Timeout value must be a number")) ∧
    (v.isNumeric = true → v.toRat < 0 →
      timeout v = Except.error (PyError.valueError "Timeout value must be non-negative")) ∧
    (∀ m mm : String, PyError.typeError m ≠ PyError.valueError mm) := by
  refine ⟨?_, ?_, ?_⟩
  · intro h
    simp [timeout, h]
  · intro h1 h2
    simp [timeout, h1, h2]
  · intro m mm hc
    exact PyError.noConfusion hc

/-- Concrete instances of C5: the string "invalid" (from the repository
test) raises the TypeError and the integer -1 raises the ValueError. -/
theorem C5_eager_validation_witness :
    timeout (PyVal.str "invalid")
      = Except.error (PyError.typeError "Timeout value must be a number") ∧
    timeout (PyVal.int (-1))
      = Except.error (PyError.valueError "Timeout value must be non-negative") :=
  ⟨(C5_eager_validation (PyVal.str "invalid")).1 rfl,
   (C5_eager_validation (PyVal.int (-1))).2.1 rfl (by norm_num [PyVal.toRat])⟩

/-- Claim C6: when the wrapped unit raises its own exception and the armed
alarm has not fired (the unit finished, raising, before the armed whole
seconds elapsed — or the alarm was armed with 0 and can never fire), the
wrapper propagates exactly that exception: same Python type name, same
message, no wrapping. -/
theorem C6_user_failure_passthrough {α : Type} (p : TimeoutPolicy) (u : DirectUnit α)
    (ty msg : String) (hz : p.seconds.toRat ≠ 0)
    (hfire : ¬(alarmSeconds p ≠ 0 ∧ ((alarmSeconds p : Rat) < u.time)))
    (hout : u.outcome = Except.error (PyError.userError ty msg)) :
    (invokeWrapped p u).outcome = Except.error (PyError.userError ty msg) := by
  rw [invokeWrapped, if_neg hz, if_neg hfire]
  exact hout

/-- Concrete instance of C6: duration 1, a unit raising CustomError with
the message from the repository test after 0.5 seconds. -/
theorem C6_user_failure_passthrough_witness :
    (invokeWrapped ⟨PyVal.int 1⟩
        (⟨"sync_function_raises_custom_error", Option.none, 1/2,
          Except.error (PyError.userError "CustomError" "Specific error from sync function")⟩
          : DirectUnit Nat)).outcome
      = Except.error (PyError.userError "CustomError" "Specific error from sync function") :=
  C6_user_failure_passthrough ⟨PyVal.int 1⟩ _ "CustomError" "Specific error from sync function"
    (by norm_num [PyVal.toRat])
    (by
      rw [show alarmSeconds ⟨PyVal.int 1⟩ = 1 from by
        rw [alarmSeconds, pyInt, PyVal.toRat, if_neg (by norm_num)]; norm_num]
      norm_num)
    rfl

/-- Claim C7: `def timeout(seconds=5)` — without an explicit duration the
policy is built with seconds = 5, validation passes, and the numeric value
of the duration is 5. -/
theorem C7_default_duration_five :
    timeoutDefaultSeconds = PyVal.int 5 ∧
    timeoutDefault = Except.ok ⟨PyVal.int 5⟩ ∧
    PyVal.toRat timeoutDefaultSeconds = 5 :=
  ⟨rfl, rfl, by norm_num [timeoutDefaultSeconds, PyVal.toRat]⟩

/-- Claim C8: functools.wraps copies the wrapped function's dunder name
and docstring onto the wrapper, so the decorated unit exposes the original
metadata, for every policy and every unit. -/
theorem C8_metadata_preserved {α : Type} (p : TimeoutPolicy) (u : DirectUnit α) :
    (decorate p u).name = u.name ∧ (decorate p u).doc = u.doc :=
  ⟨rfl, rfl⟩

/-- Claim C9: bool is a numeric type for the validation (a subclass of int
in Python), so both True and False are accepted.  True compares unequal
to 0 and truncates to int(True) = 1, so every invocation arms signal.alarm
with 1 (a 1-second timer, then the cleanup alarm(0)); False compares equal
to 0, so every invocation takes the duration-zero branch: immediate
Timeout-expired failure, no alarm call, unit never entered. -/
theorem C9_bool_durations :
    timeout (PyVal.bool true) = Except.ok ⟨PyVal.bool true⟩ ∧
    timeout (PyVal.bool false) = Except.ok ⟨PyVal.bool false⟩ ∧
    (∀ (α : Type) (u : DirectUnit α),
      (invokeWrapped ⟨PyVal.bool true⟩ u).alarmCalls = [1, 0]) ∧
    (∀ (α : Type) (u : DirectUnit α),
      invokeWrapped ⟨PyVal.bool false⟩ u
        = ⟨Except.error (PyError.timeoutException (PyVal.bool false)), [], false⟩) := by
  refine ⟨by rw [timeout]; norm_num [PyVal.isNumeric, PyVal.toRat],
          by rw [timeout]; norm_num [PyVal.isNumeric, PyVal.toRat], ?_, ?_⟩
  · intro α u
    rw [invokeWrapped, if_neg (by norm_num [PyVal.toRat])]
    rw [show alarmSeconds ⟨PyVal.bool true⟩ = 1 from by
      rw [alarmSeconds, pyInt, PyVal.toRat, if_neg (by norm_num)]; norm_num]
    split <;> rfl
  · intro α u
    rw [invokeWrapped, if_pos (by norm_num [PyVal.toRat])]

end PyFaultTolerance
